import Mathlib

/-!
Shallow embedding of the OSI frame dissection engine of
`src/include/asiotap/osi/filter.hpp` (namespace `asiotap::osi`).

Buffers are modelled as lists of bytes (`List Nat`).  A frame type
(the C++ template parameter `OSIFrameType` together with its external
per-type validator `check_frame`) is modelled as a record holding the
header size (`sizeof(OSIFrameType)`) and the validator predicate on the
underlying bytes of a cast view.  The two C++ exceptions
(`"Frame too small"` and `"Frame parsing failed"`) become the two
constructors of `ParseError`.  The observer registry (`m_callbacks`)
is a list; dispatch (`frame_handled`) and the recursive filter tree are
embedded as functions returning the list of observer-firing events in
order, together with a flag telling whether an exception escaped.
-/

/-- A raw byte buffer (`boost::asio::const_buffer` contents). -/
abbrev Buffer := List Nat

/-- An OSI frame type: the compile-time header size `sizeof(OSIFrameType)`
together with the externally supplied structural validator for views of
this type (the per-type `check_frame` overload's rule set). -/
structure FrameType where
  size : Nat
  check : Buffer → Bool

/-- Modelled from the spec: the read-only frame view of `helper.hpp`
(`const_helper<OSIFrameType>`), a zero-copy typed window over a buffer,
"specified by contract only" — it exposes header fields of the leading
`size` bytes and `payload()`, the bytes strictly after the header. -/
structure const_helper (T : FrameType) where
  buf : Buffer
deriving DecidableEq, Repr

/-- Modelled from the spec: the mutable frame view of `helper.hpp`
(`mutable_helper<OSIFrameType>`) over the same kind of buffer region. -/
structure mutable_helper (T : FrameType) where
  buf : Buffer
deriving DecidableEq, Repr

/-- Modelled from the spec: construction of a view over a buffer
(`helper<OSIFrameType>(buf)` in `helper.hpp`). -/
def helper (T : FrameType) (buf : Buffer) : const_helper T := ⟨buf⟩

/-- Modelled from the spec: construction of a mutable view over a buffer. -/
def helper_m (T : FrameType) (buf : Buffer) : mutable_helper T := ⟨buf⟩

/-- Modelled from the spec: the converting constructor
`const_helper<T>(mutable_helper<T>)` of `helper.hpp`: a read-only view
over the same bytes. -/
def const_helper.ofMutable {T : FrameType} (f : mutable_helper T) : const_helper T :=
  ⟨f.buf⟩

/-- Modelled from the spec: the header region of a view — the buffer's
leading `size` bytes, which the typed field accessors interpret per the
type's layout. -/
def const_helper.header {T : FrameType} (f : const_helper T) : Buffer :=
  f.buf.take T.size

/-- Modelled from the spec: `payload()` — the bytes of the underlying
buffer strictly after the fixed header, possibly empty. -/
def const_helper.payload {T : FrameType} (f : const_helper T) : Buffer :=
  f.buf.drop T.size

/-- `frame_cast` on a read-only buffer (filter.hpp, lines 201–210):
returns NULL when the buffer is shorter than `sizeof(OSIFrameType)`,
otherwise the mapped data.  It inspects only the buffer's length. -/
def frame_cast (T : FrameType) (buf : Buffer) : Option Buffer :=
  if buf.length < T.size then
    none
  else
    some buf

/-- `frame_cast` on a mutable buffer (filter.hpp, lines 190–199):
identical size semantics to the read-only variant. -/
def frame_cast_m (T : FrameType) (buf : Buffer) : Option Buffer :=
  if buf.length < T.size then
    none
  else
    some buf

/-- Modelled from the spec: the externally supplied per-type validator
`check_frame(const_helper<OSIFrameType>)` — a pure predicate on the
cast view, here the frame type's rule set applied to the view's bytes. -/
def check_frame {T : FrameType} (f : const_helper T) : Bool :=
  T.check f.buf

/-- `check_frame` on a mutable view (filter.hpp, lines 212–216):
delegates to the read-only validator over the same bytes. -/
def check_frame_m {T : FrameType} (f : mutable_helper T) : Bool :=
  check_frame (const_helper.ofMutable f)

/-- The two failure modes of `frame_parse`: the `"Frame too small"` and
`"Frame parsing failed"` runtime errors of filter.hpp. -/
inductive ParseError where
  | tooSmall
  | malformed
deriving DecidableEq, Repr

/-- `frame_parse` on a read-only buffer (filter.hpp, lines 236–252):
if `frame_cast` reports no mapping, fail with `tooSmall`; construct the
view; if `check_frame` rejects it, fail with `malformed`; otherwise
return the validated view. -/
def frame_parse (T : FrameType) (buf : Buffer) : Except ParseError (const_helper T) :=
  match frame_cast T buf with
  | none => .error .tooSmall
  | some _ =>
    let result : const_helper T := helper T buf
    if !check_frame result then
      .error .malformed
    else
      .ok result

/-- `frame_parse` on a mutable buffer (filter.hpp, lines 218–234): the
same logic over the mutable view. -/
def frame_parse_m (T : FrameType) (buf : Buffer) : Except ParseError (mutable_helper T) :=
  match frame_cast_m T buf with
  | none => .error .tooSmall
  | some _ =>
    let result : mutable_helper T := helper_m T buf
    if !check_frame_m result then
      .error .malformed
    else
      .ok result

/-- An observable event: the observer callback with identity `id` was
invoked with a read-only frame view over bytes `view`. -/
inductive Event where
  | fired (id : Nat) (view : Buffer)
deriving DecidableEq, Repr

/-- A callback of an observer registry (`m_callbacks` entry).  A plain
`observer` records its invocation; a `throwing` callback raises a
`std::runtime_error` when invoked; a `child` callback is the bound
`parse` method of a child `filter<OSIFrameType, ParentFilterType>`,
wired by the child filter's constructor (filter.hpp, lines 266–270),
carrying the externally supplied encapsulation predicate
`frame_parent_match`, the child's frame type and the child's own
registry. -/
inductive Callback : Type where
  | observer (id : Nat)
  | throwing (id : Nat)
  | child (pmatch : Buffer → Bool) (ftype : FrameType) (callbacks : List Callback)

/-- Whether a callback raises when invoked. -/
def Callback.isThrowing : Callback → Bool
  | .throwing _ => true
  | _ => false

/-- `_base_filter::add_callback` (filter.hpp, lines 254–258):
`m_callbacks.push_back(callback)` — append at the end of the registry. -/
def add_callback (cbs : List Callback) (cb : Callback) : List Callback :=
  cbs ++ [cb]

mutual

/-- `_base_filter::frame_handled` (filter.hpp, lines 260–264):
`std::for_each` over the registry, invoking each callback in order with
the same view; an exception from a callback aborts the remaining
invocations and propagates to the caller (second component `true`). -/
def frame_handled_run (T : FrameType) (view : Buffer) : List Callback → List Event × Bool
  | [] => ([], false)
  | cb :: rest =>
    let r := run_callback T view cb
    if r.2 then
      (r.1, true)
    else
      let rs := frame_handled_run T view rest
      (r.1 ++ rs.1, rs.2)
termination_by cbs => sizeOf cbs

/-- Invocation of one registry callback on a parent view of type `T`.
The `child` case is `filter<OSIFrameType, ParentFilterType>::parse`
(filter.hpp, lines 272–287): if `frame_parent_match` accepts the parent
view, attempt `frame_parse` on the parent's `payload()`; on success
dispatch the child's own registry via `frame_handled`; a
`std::runtime_error` (from the parse or from the dispatch) is caught
and discarded, so a child callback never propagates an error. -/
def run_callback (T : FrameType) (view : Buffer) : Callback → List Event × Bool
  | .observer id => ([Event.fired id view], false)
  | .throwing _ => ([], true)
  | .child pmatch ftype cbs =>
    if pmatch view then
      match frame_parse ftype (List.drop T.size view) with
      | .error _ => ([], false)
      | .ok frame => ((frame_handled_run ftype frame.buf cbs).1, false)
    else
      ([], false)
termination_by cb => sizeOf cb

end

/-- A filter node: its frame type and its observer registry.  The root
specialization `filter<OSIFrameType, void>` is a node whose `parse`
takes a raw buffer. -/
structure FilterNode where
  ftype : FrameType
  callbacks : List Callback

/-- `filter<OSIFrameType, void>::parse` (filter.hpp, lines 289–301):
attempt `frame_parse` on the raw buffer and on success dispatch via
`frame_handled`; any `std::runtime_error` (from the parse or from a
callback during dispatch) is caught and discarded, so the caller never
observes an error (second component always `false`). -/
def root_parse (n : FilterNode) (buf : Buffer) : List Event × Bool :=
  match frame_parse n.ftype buf with
  | .error _ => ([], false)
  | .ok frame =>
    let r := frame_handled_run n.ftype frame.buf n.callbacks
    (r.1, false)

/-- State-passing embedding of the root `parse`: the method is `const`
and its body performs no mutation of `m_callbacks`, so the node comes
back unchanged alongside the observable events. -/
def root_parse_st (n : FilterNode) (buf : Buffer) : (List Event × Bool) × FilterNode :=
  (root_parse n buf, n)

/-- `filter<OSIFrameType, ParentFilterType>::filter` (filter.hpp,
lines 266–270): construction subscribes the child's bound `parse` into
the parent's registry via `add_callback`. -/
def filter_construct (parentCbs : List Callback) (pmatch : Buffer → Bool)
    (ftype : FrameType) (cbs : List Callback) : List Callback :=
  add_callback parentCbs (Callback.child pmatch ftype cbs)

/-!  General lemmas about the embedded definitions. -/

/-- Closed-form description of `frame_parse`, obtained by unfolding the
cast and the validator call. -/
theorem frame_parse_def (T : FrameType) (b : Buffer) :
    frame_parse T b =
      if b.length < T.size then Except.error ParseError.tooSmall
      else if T.check b then Except.ok (helper T b)
      else Except.error ParseError.malformed := by
  by_cases h : b.length < T.size
  · simp [frame_parse, frame_cast, h]
  · by_cases hc : T.check b
    · simp [frame_parse, frame_cast, check_frame, helper, h, hc]
    · simp [frame_parse, frame_cast, check_frame, helper, h, hc]

/-- The mutable-buffer overload of `frame_parse` succeeds, and fails,
exactly as the read-only one, over the same bytes. -/
theorem frame_parse_m_def (T : FrameType) (b : Buffer) :
    frame_parse_m T b =
      if b.length < T.size then Except.error ParseError.tooSmall
      else if T.check b then Except.ok (helper_m T b)
      else Except.error ParseError.malformed := by
  by_cases h : b.length < T.size
  · simp [frame_parse_m, frame_cast_m, h]
  · by_cases hc : T.check b
    · simp [frame_parse_m, frame_cast_m, check_frame_m, check_frame,
        const_helper.ofMutable, helper_m, h, hc]
    · simp [frame_parse_m, frame_cast_m, check_frame_m, check_frame,
        const_helper.ofMutable, helper_m, h, hc]

/-- Inversion for a successful parse: the buffer was large enough, the
validator accepted, and the returned view is the view over the whole
buffer. -/
theorem frame_parse_ok_iff (T : FrameType) (b : Buffer) (f : const_helper T) :
    frame_parse T b = Except.ok f ↔
      T.size ≤ b.length ∧ T.check b = true ∧ f = helper T b := by
  rw [frame_parse_def]
  by_cases h : b.length < T.size
  · simp [h]
  · by_cases hc : T.check b
    · simp [h, hc, Nat.not_lt.mp h, eq_comm]
    · simp [h, hc]

/-- A callback that is not of the `throwing` kind never propagates an
exception out of its invocation. -/
theorem run_callback_no_throw (T : FrameType) (v : Buffer) (c : Callback)
    (h : c.isThrowing = false) : (run_callback T v c).2 = false := by
  cases c with
  | observer id => simp [run_callback]
  | throwing id => simp [Callback.isThrowing] at h
  | child pm f cbs =>
    simp only [run_callback]
    split
    · split
      · rfl
      · rfl
    · rfl

/-- A throw-free registry is dispatched completely: the event trace is
the concatenation, in registration order, of each callback's own trace
on the common view, and no exception escapes. -/
theorem dispatch_no_throw (T : FrameType) (v : Buffer) (cbs : List Callback)
    (h : ∀ c ∈ cbs, c.isThrowing = false) :
    frame_handled_run T v cbs =
      ((cbs.map fun c => (run_callback T v c).1).flatten, false) := by
  induction cbs with
  | nil => simp [frame_handled_run]
  | cons c rest ih =>
    have hc : (run_callback T v c).2 = false :=
      run_callback_no_throw T v c (h c (List.mem_cons_self c rest))
    have hr := ih fun d hd => h d (List.mem_cons_of_mem c hd)
    simp only [frame_handled_run, hc, hr]
    simp

/-!  Claim theorems. -/

/-- C1: for every buffer and target frame type, `frame_parse` fails
with `tooSmall` exactly when the buffer is strictly shorter than the
type's header size; when the length is sufficient but the validator
rejects the cast view it fails with `malformed`; otherwise it succeeds
and returns the validated view over the buffer. -/
theorem C1_frame_parse_error_kinds (T : FrameType) (b : Buffer) :
    (frame_parse T b = Except.error ParseError.tooSmall ↔ b.length < T.size) ∧
    (frame_parse T b = Except.error ParseError.malformed ↔
      T.size ≤ b.length ∧ check_frame (helper T b) = false) ∧
    (∀ f : const_helper T, frame_parse T b = Except.ok f ↔
      T.size ≤ b.length ∧ check_frame (helper T b) = true ∧ f = helper T b) := by
  refine ⟨?_, ?_, fun f => ?_⟩
  · rw [frame_parse_def]
    by_cases h : b.length < T.size
    · simp [h]
    · by_cases hc : T.check b <;> simp [h, hc]
  · rw [frame_parse_def]
    by_cases h : b.length < T.size
    · simp [h, check_frame, helper]
    · by_cases hc : T.check b <;>
        simp [h, hc, check_frame, helper, Nat.not_lt.mp h]
  · rw [frame_parse_ok_iff]
    simp [check_frame, helper]

/-- C2: the engine never reads a byte past the buffer end:
`frame_cast` decides solely on the buffer length (it succeeds exactly
when the length reaches the header size, gives the same verdict on any
length-equal buffer, and the mutable variant agrees with the read-only
one), and buffer contents are inspected (by the validator, via
`frame_parse`) only after the cast has confirmed the length — on a
short buffer the outcome is `tooSmall` whatever the validator, and a
successful parse hands the validator and observers a view over exactly
the buffer's own bytes. -/
theorem C2_no_read_past_end (T : FrameType) (b b2 : Buffer) :
    ((frame_cast T b).isSome ↔ T.size ≤ b.length) ∧
    frame_cast_m T b = frame_cast T b ∧
    (b.length = b2.length → (frame_cast T b).isSome = (frame_cast T b2).isSome) ∧
    (b.length < T.size →
      ∀ c : Buffer → Bool, frame_parse ⟨T.size, c⟩ b = Except.error ParseError.tooSmall) ∧
    (∀ f : const_helper T, frame_parse T b = Except.ok f → f.buf = b) := by
  refine ⟨?_, rfl, fun hlen => ?_, fun hshort c => ?_, fun f hf => ?_⟩
  · by_cases h : b.length < T.size
    · simp [frame_cast, h]
    · simp [frame_cast, h]
      omega
  · by_cases h2 : b2.length < T.size <;> simp [frame_cast, hlen, h2]
  · rw [frame_parse_def]
    simp [hshort]
  · have := (frame_parse_ok_iff T b f).mp hf
    rw [this.2.2]
    rfl

/-- Witness for C2 at concrete inputs: two 1-byte buffers get the same
cast verdict against a 2-byte header type; a 1-byte buffer parses as
`tooSmall` whatever the validator; a successful parse returns the view
over the buffer itself. -/
theorem C2_no_read_past_end_witness :
    (frame_cast ⟨2, fun _ => true⟩ [5]).isSome = (frame_cast ⟨2, fun _ => true⟩ [9]).isSome ∧
    frame_parse ⟨2, fun _ => false⟩ [5] = Except.error ParseError.tooSmall ∧
    (helper ⟨2, fun _ => true⟩ [1, 2, 3]).buf = [1, 2, 3] :=
  ⟨(C2_no_read_past_end ⟨2, fun _ => true⟩ [5] [9]).2.2.1 rfl,
   (C2_no_read_past_end ⟨2, fun _ => true⟩ [5] [9]).2.2.2.1 (by decide) (fun _ => false),
   (C2_no_read_past_end ⟨2, fun _ => true⟩ [1, 2, 3] []).2.2.2.2
     (helper ⟨2, fun _ => true⟩ [1, 2, 3]) rfl⟩

/-- C7: for every buffer that passes both cast and validator, the
view returned by `frame_parse` has its header region equal to the
buffer's leading header-size bytes (the bytes the typed field accessors
interpret), and its `payload()` equal to exactly the buffer's bytes
strictly after the header, bit for bit; together they recompose the
buffer and the header region has exactly the header size. -/
theorem C7_parse_view_decomposition (T : FrameType) (b : Buffer) (f : const_helper T)
    (h : frame_parse T b = Except.ok f) :
    f.header = b.take T.size ∧
    f.payload = b.drop T.size ∧
    f.header ++ f.payload = b ∧
    f.header.length = T.size := by
  obtain ⟨hlen, -, hf⟩ := (frame_parse_ok_iff T b f).mp h
  subst hf
  refine ⟨rfl, rfl, ?_, ?_⟩
  · simp [const_helper.header, const_helper.payload, helper]
  · simp [const_helper.header, helper]
    omega

/-- Witness for C7: the spec scenario — header size 4, a 6-byte buffer,
accepting validator: the parse succeeds and `payload()` is the trailing
2 bytes. -/
theorem C7_parse_view_decomposition_witness :
    (helper ⟨4, fun _ => true⟩ [1, 2, 3, 4, 5, 6]).header = [1, 2, 3, 4] ∧
    (helper ⟨4, fun _ => true⟩ [1, 2, 3, 4, 5, 6]).payload = [5, 6] := by
  have h := C7_parse_view_decomposition ⟨4, fun _ => true⟩ [1, 2, 3, 4, 5, 6]
    (helper ⟨4, fun _ => true⟩ [1, 2, 3, 4, 5, 6]) rfl
  exact ⟨by rw [h.1]; rfl, by rw [h.2.1]; rfl⟩

/-- C8: validating a mutable view gives the same result as
validating the read-only view over the same bytes: `check_frame` on a
`mutable_helper` equals `check_frame` on the `const_helper` constructed
from it, the conversion preserves the bytes, and both apply the one
rule set of the frame type to those bytes. -/
theorem C8_check_frame_one_rule_set (T : FrameType) (f : mutable_helper T) :
    check_frame_m f = check_frame (const_helper.ofMutable f) ∧
    (const_helper.ofMutable f).buf = f.buf ∧
    check_frame_m f = T.check f.buf :=
  ⟨rfl, rfl, rfl⟩

/-- C3: for every buffer on which `frame_parse` fails (either
kind), a root filter's `parse` returns with no observable effect: zero
observer callbacks fire, no error reaches the caller, and the filter's
registry is unchanged. -/
theorem C3_root_failure_no_effect (n : FilterNode) (b : Buffer) (e : ParseError)
    (h : frame_parse n.ftype b = Except.error e) :
    root_parse n b = ([], false) ∧ root_parse_st n b = (([], false), n) := by
  have h1 : root_parse n b = ([], false) := by
    simp [root_parse, h]
  exact ⟨h1, by simp [root_parse_st, h1]⟩

/-- Witness for C3: a 3-byte buffer against a root filter for a 4-byte
header type, with one registered observer — the parse fires nothing and
raises nothing. -/
theorem C3_root_failure_no_effect_witness :
    root_parse ⟨⟨4, fun _ => true⟩, [Callback.observer 0]⟩ [1, 2, 3] = ([], false) :=
  (C3_root_failure_no_effect ⟨⟨4, fun _ => true⟩, [Callback.observer 0]⟩ [1, 2, 3]
    ParseError.tooSmall rfl).1

/-- C4: fan-out isolation.  If a parent frame's payload satisfies
child A's encapsulation predicate but A's parse fails (validator
rejects), while it satisfies child B's predicate and B's parse
succeeds, then a failing A is a complete no-op in any registry position
(it neither fires, nor raises, nor prevents or reorders the evaluation
of the sibling callbacks after it), and dispatching `[A, B]` fires
exactly B's registry on B's frame. -/
theorem C4_fanout_isolation (T TA TB : FrameType) (v : Buffer)
    (mA mB : Buffer → Bool) (cbsA cbsB : List Callback) (frB : const_helper TB)
    (hmA : mA v = true) (hA : frame_parse TA (List.drop T.size v) = Except.error ParseError.malformed)
    (hmB : mB v = true) (hB : frame_parse TB (List.drop T.size v) = Except.ok frB) :
    (∀ rest : List Callback,
      frame_handled_run T v (Callback.child mA TA cbsA :: rest) = frame_handled_run T v rest) ∧
    frame_handled_run T v [Callback.child mA TA cbsA, Callback.child mB TB cbsB]
      = ((frame_handled_run TB frB.buf cbsB).1, false) := by
  have hA0 : run_callback T v (Callback.child mA TA cbsA) = ([], false) := by
    simp [run_callback, hmA, hA]
  have hB0 : run_callback T v (Callback.child mB TB cbsB)
      = ((frame_handled_run TB frB.buf cbsB).1, false) := by
    simp [run_callback, hmB, hB]
  constructor
  · intro rest
    simp only [frame_handled_run, hA0]
    simp
  · simp only [frame_handled_run, hA0, hB0]
    simp

/-- Witness for C4: a 2-byte parent frame whose 1-byte payload matches
both children's predicates; child A's validator rejects, child B's
accepts — only B's observer fires. -/
theorem C4_fanout_isolation_witness :
    frame_handled_run ⟨1, fun _ => true⟩ [0, 7]
      [Callback.child (fun _ => true) ⟨1, fun _ => false⟩ [Callback.observer 1],
       Callback.child (fun _ => true) ⟨1, fun _ => true⟩ [Callback.observer 2]]
      = ([Event.fired 2 [7]], false) := by
  have h := (C4_fanout_isolation ⟨1, fun _ => true⟩ ⟨1, fun _ => false⟩ ⟨1, fun _ => true⟩
    [0, 7] (fun _ => true) (fun _ => true) [Callback.observer 1] [Callback.observer 2]
    (helper ⟨1, fun _ => true⟩ [7]) rfl rfl rfl rfl).2
  rw [h]
  simp [frame_handled_run, run_callback, helper]

/-- C5: depth propagation.  For a 3-level tree (root → L2 → L3),
each level with one registered observer, a buffer that parses validly
at all three nested layers fires the root observer, the L2 observer and
the L3 observer, in that order, exactly once each. -/
theorem C5_depth_propagation (T1 T2 T3 : FrameType) (o1 o2 o3 : Nat)
    (m2 m3 : Buffer → Bool) (b : Buffer)
    (h1s : T1.size ≤ b.length) (h1c : T1.check b = true)
    (hm2 : m2 b = true)
    (h2s : T2.size ≤ (List.drop T1.size b).length)
    (h2c : T2.check (List.drop T1.size b) = true)
    (hm3 : m3 (List.drop T1.size b) = true)
    (h3s : T3.size ≤ (List.drop T2.size (List.drop T1.size b)).length)
    (h3c : T3.check (List.drop T2.size (List.drop T1.size b)) = true) :
    root_parse
      ⟨T1, [Callback.observer o1,
        Callback.child m2 T2 [Callback.observer o2,
          Callback.child m3 T3 [Callback.observer o3]]]⟩ b
      = ([Event.fired o1 b,
          Event.fired o2 (List.drop T1.size b),
          Event.fired o3 (List.drop T2.size (List.drop T1.size b))], false) := by
  have h1 : frame_parse T1 b = Except.ok (helper T1 b) :=
    (frame_parse_ok_iff T1 b (helper T1 b)).mpr ⟨h1s, h1c, rfl⟩
  have h2 : frame_parse T2 (List.drop T1.size b)
      = Except.ok (helper T2 (List.drop T1.size b)) :=
    (frame_parse_ok_iff T2 (List.drop T1.size b) (helper T2 (List.drop T1.size b))).mpr
      ⟨h2s, h2c, rfl⟩
  have h3 : frame_parse T3 (List.drop T2.size (List.drop T1.size b))
      = Except.ok (helper T3 (List.drop T2.size (List.drop T1.size b))) :=
    (frame_parse_ok_iff T3 (List.drop T2.size (List.drop T1.size b))
      (helper T3 (List.drop T2.size (List.drop T1.size b)))).mpr ⟨h3s, h3c, rfl⟩
  simp only [List.drop_drop] at h3
  simp [root_parse, frame_handled_run, run_callback, helper, h1, h2, h3, hm2, hm3,
    List.drop_drop]

/-- Witness for C5: three 1-byte header layers over the buffer
`[10, 20, 30]`, always-true validators and predicates — the three
observers fire in order, once each. -/
theorem C5_depth_propagation_witness :
    root_parse
      ⟨⟨1, fun _ => true⟩, [Callback.observer 1,
        Callback.child (fun _ => true) ⟨1, fun _ => true⟩ [Callback.observer 2,
          Callback.child (fun _ => true) ⟨1, fun _ => true⟩ [Callback.observer 3]]]⟩
      [10, 20, 30]
      = ([Event.fired 1 [10, 20, 30], Event.fired 2 [20, 30], Event.fired 3 [30]], false) := by
  have h := C5_depth_propagation ⟨1, fun _ => true⟩ ⟨1, fun _ => true⟩ ⟨1, fun _ => true⟩
    1 2 3 (fun _ => true) (fun _ => true) [10, 20, 30]
    (by decide) rfl rfl (by decide) rfl rfl (by decide) rfl
  exact h

/-- C6: for every filter and frame view, dispatch
(`frame_handled`) invokes every callback currently in the registry, in
the order the callbacks were registered, passing the same read-only
view to each (the trace is the in-order concatenation of each
callback's own trace on that one view), provided no callback throws;
`add_callback` appends at the end of the registry, preserving the
existing entries, and no operation ever removes one. -/
theorem C6_dispatch_registration_order (T : FrameType) (v : Buffer)
    (cbs : List Callback) (cb : Callback)
    (h : ∀ c ∈ cbs, c.isThrowing = false) :
    frame_handled_run T v cbs
      = ((cbs.map fun c => (run_callback T v c).1).flatten, false) ∧
    add_callback cbs cb = cbs ++ [cb] ∧
    (add_callback cbs cb).take cbs.length = cbs ∧
    (add_callback cbs cb).length = cbs.length + 1 :=
  ⟨dispatch_no_throw T v cbs h, rfl, by simp [add_callback], by simp [add_callback]⟩

/-- Witness for C6: a two-observer registry dispatched on a one-byte
view fires both observers in registration order with the same view, and
appending a callback extends the registry at the end. -/
theorem C6_dispatch_registration_order_witness :
    frame_handled_run ⟨1, fun _ => true⟩ [9] [Callback.observer 4, Callback.observer 5]
      = ([Event.fired 4 [9], Event.fired 5 [9]], false) ∧
    add_callback [Callback.observer 4, Callback.observer 5] (Callback.observer 6)
      = [Callback.observer 4, Callback.observer 5, Callback.observer 6] := by
  have h := C6_dispatch_registration_order ⟨1, fun _ => true⟩ [9]
    [Callback.observer 4, Callback.observer 5] (Callback.observer 6) (by decide)
  exact ⟨by rw [h.1]; simp [run_callback], h.2.1⟩

/-- C9: submitting the same buffer twice to the same filter tree
with the same registered observers produces two identical,
order-identical sequences of observer invocations: the root `parse` is
a `const` method that leaves the filter unchanged, so the second run
over the resulting filter state replays exactly the first trace. -/
theorem C9_idempotent_resubmission (n : FilterNode) (b : Buffer) :
    (root_parse_st n b).2 = n ∧
    (root_parse_st n b).1 = (root_parse_st (root_parse_st n b).2 b).1 :=
  ⟨rfl, rfl⟩

/-- C10: if an observer callback raises during a filter's dispatch,
the remaining callbacks of that registry are not invoked — the trace
stops at the throwing callback, whatever follows it — and the error
unwinds out of the dispatch (`frame_handled` reports it to the `parse`
that invoked it), where the enclosing `parse`'s catch block swallows
it, so the parse's own caller sees the truncated trace and no error. -/
theorem C10_throwing_callback_aborts (T : FrameType) (cbs1 cbs2 : List Callback)
    (k : Nat) (b : Buffer) (f : const_helper T)
    (h1 : ∀ c ∈ cbs1, c.isThrowing = false) (h2 : frame_parse T b = Except.ok f) :
    frame_handled_run T f.buf (cbs1 ++ Callback.throwing k :: cbs2)
      = ((cbs1.map fun c => (run_callback T f.buf c).1).flatten, true) ∧
    root_parse ⟨T, cbs1 ++ Callback.throwing k :: cbs2⟩ b
      = ((cbs1.map fun c => (run_callback T f.buf c).1).flatten, false) := by
  have hd : frame_handled_run T f.buf (cbs1 ++ Callback.throwing k :: cbs2)
      = ((cbs1.map fun c => (run_callback T f.buf c).1).flatten, true) := by
    induction cbs1 with
    | nil => simp [frame_handled_run, run_callback]
    | cons c rest ih =>
      have hc : (run_callback T f.buf c).2 = false :=
        run_callback_no_throw T f.buf c (h1 c (List.mem_cons_self c rest))
      have hr := ih fun d hd => h1 d (List.mem_cons_of_mem c hd)
      simp only [List.cons_append, frame_handled_run, hc, hr]
      simp
  refine ⟨hd, ?_⟩
  simp [root_parse, h2, hd]

/-- Witness for C10: a registry holding one well-behaved observer, then
a throwing callback, then another observer: dispatch fires the first
observer only and reports the error; the root parse over the same
registry returns that truncated trace and no error. -/
theorem C10_throwing_callback_aborts_witness :
    frame_handled_run ⟨1, fun _ => true⟩ [3]
      [Callback.observer 6, Callback.throwing 8, Callback.observer 7]
      = ([Event.fired 6 [3]], true) ∧
    root_parse ⟨⟨1, fun _ => true⟩,
      [Callback.observer 6, Callback.throwing 8, Callback.observer 7]⟩ [3]
      = ([Event.fired 6 [3]], false) := by
  have h := C10_throwing_callback_aborts ⟨1, fun _ => true⟩ [Callback.observer 6]
    [Callback.observer 7] 8 [3] (helper ⟨1, fun _ => true⟩ [3]) (by decide) rfl
  simp only [List.cons_append, List.nil_append, List.map_cons, List.map_nil,
    List.flatten_cons, List.flatten_nil, List.append_nil, helper] at h
  refine ⟨?_, ?_⟩
  · rw [h.1]
    simp [run_callback]
  · rw [h.2]
    simp [run_callback]

/-- Witness for C1: the three spec scenarios for a 4-byte header type —
a 3-byte buffer is `tooSmall`, a 4-byte buffer with a rejecting
validator is `malformed`, and a 6-byte buffer with an accepting
validator parses into the view over the whole buffer. -/
theorem C1_frame_parse_error_kinds_witness :
    frame_parse ⟨4, fun _ => true⟩ [1, 2, 3] = Except.error ParseError.tooSmall ∧
    frame_parse ⟨4, fun _ => false⟩ [1, 2, 3, 4] = Except.error ParseError.malformed ∧
    frame_parse ⟨4, fun _ => true⟩ [1, 2, 3, 4, 5, 6]
      = Except.ok (helper ⟨4, fun _ => true⟩ [1, 2, 3, 4, 5, 6]) :=
  ⟨(C1_frame_parse_error_kinds ⟨4, fun _ => true⟩ [1, 2, 3]).1.mpr (by decide),
   (C1_frame_parse_error_kinds ⟨4, fun _ => false⟩ [1, 2, 3, 4]).2.1.mpr ⟨by decide, rfl⟩,
   ((C1_frame_parse_error_kinds ⟨4, fun _ => true⟩ [1, 2, 3, 4, 5, 6]).2.2
     (helper ⟨4, fun _ => true⟩ [1, 2, 3, 4, 5, 6])).mpr ⟨by decide, rfl, rfl⟩⟩
